import Mathlib

/-!
Verification development for the subscription-reconciliation scripts
(`enhanced_data_fetcher.py`, `sharepoint_excel_update.py`).

Shallow embedding conventions:
 - pandas/Python scalar cell values that can be NaN, a number, or a string are
   modelled by the inductive type `PyVal`;
 - datetimes are modelled either as abstract `Int` timestamps (when only the
   order matters) or as `(year, month, day)` triples with lexicographic order
   (when calendar construction matters);
 - HTTP servers are modelled as functions from page number / attempt number to
   a response outcome; `Option` encodes "request failed after retries";
 - fallible library calls (`datetime(...)` construction that can raise
   `ValueError`) return `Option`.
-/

/-- Model of a Python scalar cell value as it appears in a pandas column:
`none_` stands for NaN/None/NaT, `int` for a Python int, `str` for a string. -/
inductive PyVal where
  | none_ : PyVal
  | int : Int → PyVal
  | str : String → PyVal
deriving DecidableEq, Repr

/-- Model of Python `str(value)` on the values `process_nip` can receive. -/
def pyStr : PyVal → String
  | PyVal.int n => toString n
  | PyVal.str s => s
  | PyVal.none_ => "nan"

/-- Model of Python `str.strip` with no argument: drop leading and trailing
whitespace characters. -/
def pyStrip (s : String) : String :=
  String.mk ((((s.data.dropWhile Char.isWhitespace).reverse).dropWhile
    Char.isWhitespace).reverse)

/-- Model of Python `str.isdigit` (restricted to ASCII digits, which is what
the NIP data contains): true iff the string is nonempty and all digits. -/
def pyIsDigit (s : String) : Bool :=
  !s.data.isEmpty && s.data.all Char.isDigit

/-- Model of Python `int(s)` on a pure-digit string. -/
def digitsToNat (s : String) : Nat :=
  s.data.foldl (fun a c => a * 10 + (c.toNat - 48)) 0

/-- Embedding of `process_nip` (`enhanced_data_fetcher.py:440-452`,
`sharepoint_excel_update.py:948-960`): NaN or the empty string pass through;
otherwise the value is stringified and stripped; a pure-digit string is
coerced to an int, anything else is kept as the (stripped) string. -/
def process_nip (nip_value : PyVal) : PyVal :=
  match nip_value with
  | PyVal.none_ => PyVal.none_
  | v =>
    if v = PyVal.str "" then v
    else
      let nip_str := pyStrip (pyStr v)
      if pyIsDigit nip_str then PyVal.int (Int.ofNat (digitsToNat nip_str))
      else PyVal.str nip_str

/-- Model of Python `str.zfill`: pad with leading zeros up to width `w`. -/
def zfill (s : String) (w : Nat) : String :=
  String.mk (List.replicate (w - s.length) '0') ++ s

/-- Embedding of the NIP-normalisation core of `extract_client_nip`
(`sharepoint_excel_update.py:350-377`), applied to the `nip` value taken from
`task['client']['company']`: a positive number is rendered as its decimal
string and zero-padded to 10 characters when shorter; a nonempty string is
returned unchanged; anything else yields the empty string. -/
def extract_client_nip (nip : PyVal) : String :=
  match nip with
  | PyVal.int n =>
    if 0 < n then
      let nip_str := toString n
      if nip_str.length < 10 then zfill nip_str 10 else nip_str
    else ""
  | PyVal.str s => if s ≠ "" then s else ""
  | PyVal.none_ => ""

/-- Fuel-indexed helper for `colLetters`: structural recursion on the fuel so
that the definition reduces in the kernel; `colLetters n` supplies fuel `n`,
which always suffices because the column number strictly decreases. -/
def colLettersAux : Nat → Nat → List Char
  | _, 0 => []
  | 0, _ + 1 => []
  | fuel + 1, n + 1 => colLettersAux fuel (n / 26) ++ [Char.ofNat (n % 26 + 65)]

/-- Embedding of the character list built by `get_column_letter`
(`sharepoint_excel_update.py:202-209`): repeatedly decrement by one, emit
`chr(rem % 26 + ord A)`, and divide by 26; the Python loop prepends, so the
recursive call produces the more significant letters. -/
def colLetters (n : Nat) : List Char :=
  colLettersAux n n

/-- Helper lemma: the fuel argument of `colLettersAux` is irrelevant as long
as it is at least the column number. -/
theorem colLettersAux_fuel : ∀ f g n, n ≤ f → n ≤ g →
    colLettersAux f n = colLettersAux g n := by
  intro f
  induction f with
  | zero =>
    intro g n hf _
    interval_cases n
    cases g <;> rfl
  | succ f ih =>
    intro g n hf hg
    match n, g with
    | 0, g => cases g <;> rfl
    | n + 1, 0 => omega
    | n + 1, g + 1 =>
      show colLettersAux f (n / 26) ++ _ = colLettersAux g (n / 26) ++ _
      rw [ih g (n / 26) (by omega) (by have := Nat.div_le_self n 26; omega)]

/-- Unfolding equation for `colLetters` matching one Python loop iteration. -/
theorem colLetters_succ (n : Nat) :
    colLetters (n + 1) = colLetters (n / 26) ++ [Char.ofNat (n % 26 + 65)] := by
  show colLettersAux n (n / 26) ++ _ = colLettersAux (n / 26) (n / 26) ++ _
  rw [colLettersAux_fuel n (n / 26) (n / 26) (Nat.div_le_self n 26) le_rfl]

/-- Embedding of `get_column_letter` (`sharepoint_excel_update.py:202-209`):
convert a 1-based column number to its Excel column letter. -/
def get_column_letter (col_num : Nat) : String :=
  String.mk (colLetters col_num)

/-- Valuation of a letter string in bijective base 26 (A=1 .. Z=26), used to
state that `get_column_letter` is the bijective base-26 numbering. -/
def letterValAux : Nat → List Char → Nat
  | acc, [] => acc
  | acc, c :: cs => letterValAux (acc * 26 + (c.toNat - 64)) cs

/-- Bijective base-26 value of a column-letter string. -/
def letterVal (s : String) : Nat :=
  letterValAux 0 s.data

/-- Helper for `pySplit`: split a character list at a separator. -/
def splitOnSep (sep : Char) : List Char → List (List Char)
  | [] => [[]]
  | c :: cs =>
    match splitOnSep sep cs with
    | [] => [[]]
    | r :: rs => if c = sep then [] :: r :: rs else (c :: r) :: rs

/-- Model of Python `str.split(sep)` for a single-character separator,
character-list based so that it reduces in the kernel. -/
def pySplit (sep : Char) (s : String) : List String :=
  (splitOnSep sep s.data).map String.mk

/-- Embedding of the clear-range computation of `clear_excel_worksheet`
(`sharepoint_excel_update.py:134-153`): the configured column span is split
on `:` as in `column_range.split(':')[0]` / `[1]`, and the cleared range is
`start_col ++ "2:" ++ end_col ++ "15000"`; without a column span it is
`"2:15000"`.  The record count is not an input: the row span 2..15000 is
fixed. -/
def clear_range_address (column_range : Option String) : String :=
  match column_range with
  | some cr =>
    let start_col := (pySplit ':' cr).getD 0 ""
    let end_col := (pySplit ':' cr).getD 1 ""
    start_col ++ "2:" ++ end_col ++ "15000"
  | none => "2:15000"

/-- Embedding of the write-range computation of
`update_excel_worksheet_directly` (`sharepoint_excel_update.py:197-220`):
for the subscriptions sheet the data region starts at column 3 (`C`) and
spans `num_cols` columns and rows 2 .. `num_rows + 1`; for any other sheet it
starts at the configured `start_column` and ends at column `num_cols`. -/
def write_range_address (isSubscriptionsSheet : Bool) (start_column : String)
    (num_rows num_cols : Nat) : String :=
  if isSubscriptionsSheet then
    let start_col_num := 3
    let end_col_num := start_col_num + num_cols - 1
    get_column_letter start_col_num ++ "2:" ++ get_column_letter end_col_num
      ++ toString (num_rows + 1)
  else
    get_column_letter num_cols |> fun end_col =>
      start_column ++ "2:" ++ end_col ++ toString (num_rows + 1)

/-- Spreadsheet range in A1 notation from numeric column/row coordinates;
used to express which cells a computed range address denotes. -/
def mkRangeAddr (c1 r1 c2 r2 : Nat) : String :=
  get_column_letter c1 ++ toString r1 ++ ":" ++ get_column_letter c2 ++ toString r2

/-- Helper lemma: `Char.ofNat` round-trips on the code points of the capital
letters used by the column conversion. -/
theorem char_ofNat_letter_toNat (m : Nat) (h : m < 26) :
    (Char.ofNat (m + 65)).toNat = m + 65 := by
  interval_cases m <;> decide

/-- Helper lemma: `letterValAux` distributes over list append. -/
theorem letterValAux_append : ∀ (l1 l2 : List Char) (acc : Nat),
    letterValAux acc (l1 ++ l2) = letterValAux (letterValAux acc l1) l2 := by
  intro l1
  induction l1 with
  | nil => intro l2 acc; rfl
  | cons c cs ih =>
    intro l2 acc
    show letterValAux (acc * 26 + (c.toNat - 64)) (cs ++ l2) =
      letterValAux (letterValAux (acc * 26 + (c.toNat - 64)) cs) l2
    exact ih l2 _

/-- Helper lemma: evaluating the letters produced by `colLetters` in bijective
base 26 recovers the column number. -/
theorem letterValAux_colLetters : ∀ n, letterValAux 0 (colLetters n) = n := by
  intro n
  induction n using Nat.strong_induction_on with
  | _ n ih =>
    match n with
    | 0 => rfl
    | n + 1 =>
      rw [colLetters_succ, letterValAux_append,
        ih (n / 26) (Nat.lt_succ_of_le (Nat.div_le_self n 26))]
      show (n / 26) * 26 + ((Char.ofNat (n % 26 + 65)).toNat - 64) = n + 1
      rw [char_ofNat_letter_toNat (n % 26) (Nat.mod_lt n (by omega))]
      omega

/-- Helper lemma: every character produced by `colLetters` is a capital
letter `A`..`Z`. -/
theorem colLetters_mem_range : ∀ n, ∀ c ∈ colLetters n,
    65 ≤ c.toNat ∧ c.toNat ≤ 90 := by
  intro n
  induction n using Nat.strong_induction_on with
  | _ n ih =>
    match n with
    | 0 => intro c hc; cases hc
    | n + 1 =>
      intro c hc
      rw [colLetters_succ] at hc
      rcases List.mem_append.mp hc with h | h
      · exact ih (n / 26) (Nat.lt_succ_of_le (Nat.div_le_self n 26)) c h
      · rcases List.mem_singleton.mp h with rfl
        rw [char_ofNat_letter_toNat (n % 26) (Nat.mod_lt n (by omega))]
        omega

/-- Helper lemma: a positive column number yields a nonempty letter list. -/
theorem colLetters_ne_nil (n : Nat) (h : 1 ≤ n) : colLetters n ≠ [] := by
  match n, h with
  | n + 1, _ =>
    rw [colLetters_succ]
    simp

/-- C8: the clear operation always targets the fixed row span 2..15000 of the
configured column span (the record count is not even an input of
`clear_range_address`); for `n` records and `k` fields the write range runs
from row 2 through row `n + 1` and from the start column (3 for the
subscriptions sheet, the configured letter otherwise) through column
`start + k - 1`; and `get_column_letter` is the bijective base-26 numbering
with A=1, Z=26, AA=27, AB=28, producing for every positive index a nonempty
string of capital letters whose bijective base-26 value is the index. -/
theorem claim_C8_sheet_ranges :
    clear_range_address (some "C:U") = "C2:U15000"
  ∧ clear_range_address none = "2:15000"
  ∧ (∀ n k : Nat, 1 ≤ k →
      write_range_address true "A" n k = mkRangeAddr 3 2 (3 + k - 1) (n + 1))
  ∧ (∀ n k : Nat, write_range_address false "A" n k = mkRangeAddr 1 2 k (n + 1))
  ∧ get_column_letter 1 = "A" ∧ get_column_letter 26 = "Z"
  ∧ get_column_letter 27 = "AA" ∧ get_column_letter 28 = "AB"
  ∧ (∀ n : Nat, 1 ≤ n → get_column_letter n ≠ ""
      ∧ letterVal (get_column_letter n) = n
      ∧ ∀ c ∈ (get_column_letter n).data, 65 ≤ c.toNat ∧ c.toNat ≤ 90) := by
  refine ⟨by decide, rfl, ?_, ?_, by decide, by decide, by decide, by decide, ?_⟩
  · intro n k _
    have h2 : (toString (2 : Nat)).data = ['2'] := by decide
    rw [String.ext_iff]
    simp [write_range_address, mkRangeAddr, String.data_append, h2]
  · intro n k
    have h1 : get_column_letter 1 = "A" := by decide
    have h2 : (toString (2 : Nat)).data = ['2'] := by decide
    rw [String.ext_iff]
    simp [write_range_address, mkRangeAddr, String.data_append, h1, h2]
  · intro n hn
    refine ⟨?_, letterValAux_colLetters n, ?_⟩
    · intro hcon
      apply colLetters_ne_nil n hn
      have : (get_column_letter n).data = ("" : String).data := by rw [hcon]
      simpa [get_column_letter] using this
    · intro c hc
      exact colLetters_mem_range n c hc

/-- Witness for C8 at concrete inputs: 4 records and 19 fields on the
subscriptions sheet give the range `C2:U5`, and index 28 maps to a nonempty
letter string of value 28. -/
theorem claim_C8_sheet_ranges_witness :
    write_range_address true "A" 4 19 = mkRangeAddr 3 2 (3 + 19 - 1) (4 + 1)
  ∧ letterVal (get_column_letter 28) = 28 :=
  ⟨claim_C8_sheet_ranges.2.2.1 4 19 (by decide),
   (claim_C8_sheet_ranges.2.2.2.2.2.2.2.2 28 (by decide)).2.1⟩

/-- C4 counterexample: the claim says the 7-digit input `"1234567"` on the CRM
path yields `"0001234567"`, but `extract_client_nip` only pads numeric NIP
values; the string `"1234567"` is returned unchanged. -/
theorem claim_C4_counterexample :
    extract_client_nip (PyVal.str "1234567") ≠ "0001234567" := by decide

/-- C4 (amended): a CRM-sourced identifier given as the 7-digit number
`1234567` yields `"0001234567"` while the 7-digit string `"1234567"` is
returned unchanged; the platform-sourced formatted string `"123-456-78-90"`
is returned unchanged; the platform-sourced pure-digit value `1234567890` is
coerced to the integer `1234567890`; the CRM path pads every positive numeric
identifier of at most 10 digits to exactly 10 characters, and the platform
path never pads (a pure-digit string is coerced to its integer value). -/
theorem claim_C4_nip_normalization :
    extract_client_nip (PyVal.int 1234567) = "0001234567"
  ∧ extract_client_nip (PyVal.str "1234567") = "1234567"
  ∧ process_nip (PyVal.str "123-456-78-90") = PyVal.str "123-456-78-90"
  ∧ process_nip (PyVal.int 1234567890) = PyVal.int 1234567890
  ∧ (∀ n : Int, 0 < n → (toString n).length ≤ 10 →
      (extract_client_nip (PyVal.int n)).length = 10)
  ∧ (∀ s : String, pyIsDigit (pyStrip s) = true →
      process_nip (PyVal.str s) = PyVal.int (Int.ofNat (digitsToNat (pyStrip s)))) := by
  refine ⟨by decide, by decide, by decide, by decide, ?_, ?_⟩
  · intro n hn hlen
    simp only [extract_client_nip, if_pos hn]
    split
    · next hlt =>
      simp only [zfill, String.length_append]
      show (List.replicate (10 - (toString n).length) '0').length
        + (toString n).length = 10
      rw [List.length_replicate]
      omega
    · next hge => omega
  · intro s hdig
    have hne : PyVal.str s ≠ PyVal.str "" := by
      intro hcon
      injection hcon with h
      rw [h] at hdig
      exact absurd hdig (by decide)
    simp only [process_nip]
    rw [if_neg hne]
    simp only [pyStr]
    rw [if_pos hdig]

/-- Witness for C4 at concrete inputs: padding 7-digit number 42 and
coercing the digit string `" 77 "`. -/
theorem claim_C4_nip_normalization_witness :
    (extract_client_nip (PyVal.int 42)).length = 10
  ∧ process_nip (PyVal.str " 77 ") = PyVal.int 77 :=
  ⟨claim_C4_nip_normalization.2.2.2.2.1 42 (by decide) (by decide),
   by
    have h := claim_C4_nip_normalization.2.2.2.2.2 " 77 " (by decide)
    simpa using h⟩

/-- Model of the `Data wygaśnięcia` cell as `calculate_status3` receives it:
NaN/NaT, the empty string, a pandas timestamp (which has `to_pydatetime`),
or a raw string.  A string is modelled by the outcomes of the two
`datetime.strptime` attempts the source makes — `p1` for the format
`%Y-%m-%d %H:%M:%S` and `p2` for `%Y-%m-%d` (`strptime` itself is a library
call outside the repository; its result on the given string is the model
parameter).  Datetimes are abstract `Int` timestamps. -/
inductive ExpirationCell where
  | nan : ExpirationCell
  | emptyStr : ExpirationCell
  | timestamp : Int → ExpirationCell
  | strval : Option Int → Option Int → ExpirationCell
deriving DecidableEq, Repr

/-- Model of the `ID Subskrypcji Klienta` cell: NaN, the empty string, or an
identifier value. -/
inductive IdCell where
  | nan : IdCell
  | emptyStr : IdCell
  | idval : Int → IdCell
deriving DecidableEq, Repr

/-- Embedding of `pd.isna(x) or x == ''` applied to the client-subscription
identifier (`sharepoint_excel_update.py:806`). -/
def idIsBlank : IdCell → Bool
  | IdCell.nan => true
  | IdCell.emptyStr => true
  | IdCell.idval _ => false

/-- Embedding of the expiration-date resolution in `calculate_status3`
(`sharepoint_excel_update.py:810-823`): NaN or `''` is blank; a timestamp is
converted via `to_pydatetime`; a string is parsed with
`strptime(.., %Y-%m-%d %H:%M:%S)` and on `ValueError` with
`strptime(.., %Y-%m-%d)`; if both raise, the date counts as blank. -/
def resolveExpiration : ExpirationCell → Option Int
  | ExpirationCell.nan => none
  | ExpirationCell.emptyStr => none
  | ExpirationCell.timestamp t => some t
  | ExpirationCell.strval p1 p2 =>
    match p1 with
    | some t => some t
    | none =>
      match p2 with
      | some t => some t
      | none => none

/-- Row of the two cells `calculate_status3` reads; the function reads no
invoice data, so no invoice field appears here. -/
structure Status3Row where
  dataWygasniecia : ExpirationCell
  idSubskrypcjiKlienta : IdCell
deriving DecidableEq, Repr

/-- Branch chain of `calculate_status3` (`sharepoint_excel_update.py:825-836`)
over the blankness of the identity cell and the resolved expiration date,
kept exactly as in the source, including the unreachable second test of
`expiration_date > now`. -/
def status3_branches (now : Int) (blankId : Bool) (expiration : Option Int) : String :=
  if blankId then "Nieokreślony"
  else
    match expiration with
    | none => "Aktywna"
    | some expiration_date =>
      if expiration_date > now then "Anulowana (aktywna)"
      else if expiration_date > now then "Aktywna"
      else if expiration_date ≤ now then "Anulowana"
      else "Nieokreślony"

/-- Embedding of `calculate_status3` (`sharepoint_excel_update.py:799-836`):
`now` stands for `datetime.now()`; the expiration cell is resolved as in
lines 810-823 and the branch chain of lines 825-836 is applied. -/
def calculate_status3 (now : Int) (row : Status3Row) : String :=
  status3_branches now (idIsBlank row.idSubskrypcjiKlienta)
    (resolveExpiration row.dataWygasniecia)

/-- Truth of "expiration date strictly in the future" over a resolved
expiration date. -/
def futureOf (now : Int) (r : Option Int) : Bool :=
  match r with
  | some e => now < e
  | none => false

/-- Truth of "expiration date present and strictly in the future" over the
expiration cell. -/
def expirationInFuture (now : Int) (cell : ExpirationCell) : Bool :=
  futureOf now (resolveExpiration cell)

/-- Statement-side rendering of claim C2's ordered branch list (modelled from
the claim's words, to be compared with `calculate_status3`): first-match-wins
over (1) no identity, (2) identity and expiration present and future,
(3) identity and (expiration absent or future), (4) expiration present and
not future, (5) otherwise undetermined. -/
def status3_claim_core (now : Int) (hasId : Bool) (r : Option Int) : String :=
  let expPresent : Bool := r.isSome
  let future : Bool := futureOf now r
  if !hasId then "Nieokreślony"
  else if expPresent && future then "Anulowana (aktywna)"
  else if !expPresent || future then "Aktywna"
  else if expPresent && !future then "Anulowana"
  else "Nieokreślony"

/-- Claim C2's branch list applied to a row: identity presence and resolved
expiration date are read off the row's cells. -/
def status3_claim_spec (now : Int) (row : Status3Row) : String :=
  status3_claim_core now (!idIsBlank row.idSubskrypcjiKlienta)
    (resolveExpiration row.dataWygasniecia)

/-- Helper lemma: the source's branch chain agrees with the claim's branch
list for every blankness flag and every resolved expiration date. -/
theorem status3_branches_eq_core (now : Int) (b : Bool) (r : Option Int) :
    status3_branches now b r = status3_claim_core now (!b) r := by
  cases b
  · cases r with
    | none => simp [status3_branches, status3_claim_core, futureOf]
    | some e =>
      by_cases hlt : now < e
      · simp [status3_branches, status3_claim_core, futureOf, hlt, gt_iff_lt]
      · simp [status3_branches, status3_claim_core, futureOf, hlt, gt_iff_lt,
          le_of_not_lt hlt]
  · simp [status3_branches, status3_claim_core]

/-- C2: the lifecycle state computed by `calculate_status3` agrees with the
claim's first-match-wins branch list on every row, and in particular a row
with identity present and expiration in the future is classified
`Anulowana (aktywna)`, never `Aktywna`; the function's inputs are only the
two date/identity cells, so it reads no invoice data. -/
theorem claim_C2_status3_branches :
    (∀ (now : Int) (row : Status3Row),
      calculate_status3 now row = status3_claim_spec now row)
  ∧ (∀ (now : Int) (row : Status3Row) (e : Int),
      idIsBlank row.idSubskrypcjiKlienta = false →
      resolveExpiration row.dataWygasniecia = some e → now < e →
      calculate_status3 now row = "Anulowana (aktywna)") := by
  constructor
  · intro now row
    exact status3_branches_eq_core now (idIsBlank row.idSubskrypcjiKlienta)
      (resolveExpiration row.dataWygasniecia)
  · intro now row e hid hr hlt
    simp [calculate_status3, status3_branches, hid, hr, gt_iff_lt, hlt]

/-- Witness for C2 at a concrete row: identity 7, expiration timestamp 10,
now 0 gives `Anulowana (aktywna)`. -/
theorem claim_C2_status3_branches_witness :
    calculate_status3 0 ⟨ExpirationCell.timestamp 10, IdCell.idval 7⟩
      = status3_claim_spec 0 ⟨ExpirationCell.timestamp 10, IdCell.idval 7⟩
  ∧ calculate_status3 0 ⟨ExpirationCell.timestamp 10, IdCell.idval 7⟩
      = "Anulowana (aktywna)" :=
  ⟨claim_C2_status3_branches.1 0 _,
   claim_C2_status3_branches.2 0 ⟨ExpirationCell.timestamp 10, IdCell.idval 7⟩ 10
     (by decide) rfl (by decide)⟩

/-- C10: a string expiration date whose two `strptime` attempts both fail is
treated exactly as a blank expiration date — `calculate_status3` returns the
same value as for NaN on every identity cell and every `now` — and hence a
row with a customer-subscription identity and an unparsable expiration
string is classified `Aktywna`. -/
theorem claim_C10_unparsable_expiration :
    (∀ (now : Int) (cid : IdCell),
      calculate_status3 now ⟨ExpirationCell.strval none none, cid⟩
        = calculate_status3 now ⟨ExpirationCell.nan, cid⟩)
  ∧ (∀ (now : Int) (cid : IdCell), idIsBlank cid = false →
      calculate_status3 now ⟨ExpirationCell.strval none none, cid⟩ = "Aktywna") := by
  constructor
  · intro now cid
    rfl
  · intro now cid hid
    simp [calculate_status3, status3_branches, hid, resolveExpiration]

/-- Witness for C10 at a concrete row: identity 7, unparsable string, now 0. -/
theorem claim_C10_unparsable_expiration_witness :
    calculate_status3 0 ⟨ExpirationCell.strval none none, IdCell.idval 7⟩ = "Aktywna" :=
  claim_C10_unparsable_expiration.2 0 (IdCell.idval 7) (by decide)

/-- Row of the two date cells the cancellation-date update reads and writes;
dates are abstract `Int` timestamps, `none` is NaT. -/
structure CancellationRow where
  dataAnulowania : Option Int
  dataWygasniecia : Option Int
deriving DecidableEq, Repr

/-- Embedding of the per-row effect of the masked assignment
`df.loc[mask, 'Data anulowania'] = df['Data wygaśnięcia']` with
`mask = df['Data anulowania'].isna() & df['Data wygaśnięcia'].notna()`
(`enhanced_data_fetcher.py:435-437`, `sharepoint_excel_update.py:938-944`). -/
def update_cancellation_dates_row (row : CancellationRow) : CancellationRow :=
  if row.dataAnulowania.isNone && row.dataWygasniecia.isSome then
    { row with dataAnulowania := row.dataWygasniecia }
  else row

/-- Embedding of `update_cancellation_dates` over the whole table: the masked
assignment acts row by row. -/
def update_cancellation_dates (df : List CancellationRow) : List CancellationRow :=
  df.map update_cancellation_dates_row

/-- C3: after the cancellation-date reconciliation, a row with both dates
null keeps a null cancellation date; a row with null cancellation date and
expiration `D` gets cancellation date `D`; and a non-null cancellation date
is never overwritten. -/
theorem claim_C3_cancellation_dates :
    (∀ row : CancellationRow, row.dataAnulowania = none →
      row.dataWygasniecia = none →
      (update_cancellation_dates_row row).dataAnulowania = none)
  ∧ (∀ (row : CancellationRow) (D : Int), row.dataAnulowania = none →
      row.dataWygasniecia = some D →
      (update_cancellation_dates_row row).dataAnulowania = some D)
  ∧ (∀ (row : CancellationRow) (d : Int), row.dataAnulowania = some d →
      (update_cancellation_dates_row row).dataAnulowania = some d)
  ∧ (∀ df : List CancellationRow,
      update_cancellation_dates df = df.map update_cancellation_dates_row) := by
  refine ⟨?_, ?_, ?_, fun _ => rfl⟩
  · intro row h1 h2
    simp [update_cancellation_dates_row, h1, h2]
  · intro row D h1 h2
    simp [update_cancellation_dates_row, h1, h2]
  · intro row d h1
    simp [update_cancellation_dates_row, h1]

/-- Witness for C3 at concrete rows: both dates null, null cancellation with
expiration 5, and cancellation 3 with expiration 5. -/
theorem claim_C3_cancellation_dates_witness :
    (update_cancellation_dates_row ⟨none, none⟩).dataAnulowania = none
  ∧ (update_cancellation_dates_row ⟨none, some 5⟩).dataAnulowania = some 5
  ∧ (update_cancellation_dates_row ⟨some 3, some 5⟩).dataAnulowania = some 3 :=
  ⟨claim_C3_cancellation_dates.1 ⟨none, none⟩ rfl rfl,
   claim_C3_cancellation_dates.2.1 ⟨none, some 5⟩ 5 rfl rfl,
   claim_C3_cancellation_dates.2.2.1 ⟨some 3, some 5⟩ 3 rfl⟩


/-- Record of the customer-subscription source (`users_subscriptions_df`)
restricted to the fields the join and filter read: `id` (becoming `id_x`),
`subscription_id`, `user.id` and `status`. -/
structure UserSub where
  id : Int
  subscription_id : Int
  user_id : Int
  status : String
deriving DecidableEq, Repr

/-- Record of the plan-metadata source projected to
`subscriptions_df[['id', 'price.recurring_interval']]`. -/
structure PlanSub where
  id : Int
  recurring_interval : String
deriving DecidableEq, Repr

/-- Row of the merged table: `id_x`/`id_y` are the pandas suffixes for the
two `id` columns; `id_y` and `recurring_interval` are `none` (NaN) when no
plan-metadata record matched. -/
structure MergedRow where
  id_x : Int
  subscription_id : Int
  user_id : Int
  status : String
  id_y : Option Int
  recurring_interval : Option String
deriving DecidableEq, Repr

/-- Merged row for a matched plan-metadata record. -/
def mergeRow (u : UserSub) (s : PlanSub) : MergedRow :=
  ⟨u.id, u.subscription_id, u.user_id, u.status, some s.id, some s.recurring_interval⟩

/-- Merged row for a customer-subscription record with no plan-metadata
match: the right-hand fields are NaN. -/
def unmatchedRow (u : UserSub) : MergedRow :=
  ⟨u.id, u.subscription_id, u.user_id, u.status, none, none⟩

/-- Embedding of the left merge
`pd.merge(users_subscriptions_df, subscriptions_df[['id', 'price.recurring_interval']], left_on='subscription_id', right_on='id', how='left')`
(`enhanced_data_fetcher.py:383-389`, `sharepoint_excel_update.py:885-891`):
each left record produces one row per matching right record, or a single
row with NaN right-hand fields when no right record matches. -/
def merge_left (users : List UserSub) (subs : List PlanSub) : List MergedRow :=
  users.flatMap fun u =>
    let ms := subs.filter fun s => s.id == u.subscription_id
    if ms.isEmpty then [unmatchedRow u] else ms.map (mergeRow u)

/-- Deny-list of plan (subscription) identifiers
(`enhanced_data_fetcher.py:392`, `sharepoint_excel_update.py:894`). -/
def excluded_subscription_ids : List Int := [260, 231, 169, 157, 140, 92, 42, 9, 7]

/-- Deny-list of user identifiers (`enhanced_data_fetcher.py:393`,
`sharepoint_excel_update.py:895`). -/
def excluded_user_ids : List Int :=
  [9771, 9799, 10735, 9817, 100, 12113, 10860, 12216, 7185, 12218, 8819, 10635, 7921, 14480, 15416]

/-- Embedding of the row predicate of the exclusion filter
(`enhanced_data_fetcher.py:395-399`, `sharepoint_excel_update.py:897-901`):
`~id_y.isin(excluded_subscription_ids) & status.isin(['active','canceled'])
& ~user.id.isin(excluded_user_ids)`; pandas `isin` is false on NaN, so an
unmatched row (NaN `id_y`) passes the first conjunct. -/
def keepRow (r : MergedRow) : Bool :=
  !(match r.id_y with
    | some i => excluded_subscription_ids.contains i
    | none => false)
  && (r.status == "active" || r.status == "canceled")
  && !excluded_user_ids.contains r.user_id

/-- Embedding of the boolean-mask filtering of the merged table. -/
def filter_exclusions (rows : List MergedRow) : List MergedRow :=
  rows.filter keepRow

/-- C5: the reconciliation join is a left join — every customer-subscription
record yields a row of the joined table carrying its fields, with NaN plan
id and NaN billing interval (neither monthly nor yearly) when no
plan-metadata record matches its `subscription_id`; and the exclusion filter
keeps a row iff its plan id is not deny-listed, its status is `active` or
`canceled`, and its user id is not deny-listed — so a row whose status is
outside that set is dropped from the final table entirely. -/
theorem claim_C5_left_join_and_filter :
    (∀ (users : List UserSub) (subs : List PlanSub) (u : UserSub), u ∈ users →
      ∃ r ∈ merge_left users subs,
        r.id_x = u.id ∧ r.subscription_id = u.subscription_id
        ∧ r.user_id = u.user_id ∧ r.status = u.status
        ∧ ((∀ s ∈ subs, s.id ≠ u.subscription_id) →
            r.id_y = none ∧ r.recurring_interval = none))
  ∧ (∀ (rows : List MergedRow) (r : MergedRow),
      r ∈ filter_exclusions rows ↔
        r ∈ rows
        ∧ ¬(∃ i, r.id_y = some i ∧ i ∈ excluded_subscription_ids)
        ∧ (r.status = "active" ∨ r.status = "canceled")
        ∧ r.user_id ∉ excluded_user_ids) := by
  constructor
  · intro users subs u hu
    by_cases hms : (subs.filter fun s => s.id == u.subscription_id).isEmpty
    · refine ⟨unmatchedRow u, ?_, rfl, rfl, rfl, rfl, fun _ => ⟨rfl, rfl⟩⟩
      apply List.mem_flatMap.mpr
      refine ⟨u, hu, ?_⟩
      simp only [hms, if_true]
      exact List.mem_singleton.mpr rfl
    · obtain ⟨s, ss, hcons⟩ : ∃ a l,
          (subs.filter fun s => s.id == u.subscription_id) = a :: l := by
        cases hfe : subs.filter fun s => s.id == u.subscription_id with
        | nil => rw [hfe] at hms; simp at hms
        | cons a l => exact ⟨a, l, rfl⟩
      refine ⟨mergeRow u s, ?_, rfl, rfl, rfl, rfl, ?_⟩
      · apply List.mem_flatMap.mpr
        refine ⟨u, hu, ?_⟩
        simp only [hms, if_false]
        rw [hcons]
        exact List.mem_map.mpr ⟨s, List.mem_cons_self s ss, rfl⟩
      · intro hnone
        exfalso
        have hmem : s ∈ subs.filter fun s => s.id == u.subscription_id :=
          hcons ▸ List.mem_cons_self s ss
        have hf := List.mem_filter.mp hmem
        exact hnone s hf.1 (by simpa using hf.2)
  · intro rows r
    rw [filter_exclusions, List.mem_filter]
    apply and_congr_right
    intro _
    cases hy : r.id_y with
    | none => simp [keepRow, hy, and_assoc]
    | some i => simp [keepRow, hy, and_assoc]

/-- Witness for C5: in a two-record scenario the record with
`subscription_id = 200` has no plan match and appears in the join with an
undetermined interval, and a row whose status is `expired` is dropped by the
exclusion filter. -/
theorem claim_C5_left_join_and_filter_witness :
    (merge_left [⟨1, 100, 11, "active"⟩, ⟨2, 200, 22, "expired"⟩] [⟨100, "year"⟩]).any
      (fun r => r.id_x == 2 && r.recurring_interval.isNone) = true
  ∧ unmatchedRow ⟨2, 200, 22, "expired"⟩
      ∉ filter_exclusions [unmatchedRow ⟨2, 200, 22, "expired"⟩] := by
  constructor
  · obtain ⟨r, hr, h1, h2, h3, h4, h5⟩ :=
      claim_C5_left_join_and_filter.1 [⟨1, 100, 11, "active"⟩, ⟨2, 200, 22, "expired"⟩]
        [⟨100, "year"⟩] ⟨2, 200, 22, "expired"⟩ (by simp)
    have h6 := h5 (by decide)
    exact List.any_eq_true.mpr ⟨r, hr, by simp [h1, h6.2]⟩
  · intro hmem
    have h := (claim_C5_left_join_and_filter.2
      [unmatchedRow ⟨2, 200, 22, "expired"⟩] (unmatchedRow ⟨2, 200, 22, "expired"⟩)).mp hmem
    rcases h with ⟨-, -, hst, -⟩
    rcases hst with h | h <;> exact absurd h (by decide)

/-- Outcome of one `requests.get` attempt inside
`make_api_request_with_retry`: an HTTP response with a status code, a
`requests.exceptions.Timeout`, or another `requests.exceptions.RequestException`
(connection error). -/
inductive Outcome where
  | status : Nat → Outcome
  | timeout : Outcome
  | connError : Outcome
deriving DecidableEq, Repr

/-- Result of `make_api_request_with_retry`: a returned response (recording
the attempt index and status code) or the `None` sentinel after the retry
budget is spent. -/
inductive RetryResult where
  | resp : Nat → Nat → RetryResult
  | noResponse : RetryResult
deriving DecidableEq, Repr

/-- Embedding of the retry loop of `make_api_request_with_retry`
(`enhanced_data_fetcher.py:182-216`, `sharepoint_excel_update.py:603-637`):
`attempt` is the current 0-based attempt index, the second argument the
remaining attempts (`max_retries - attempt`), and `tries` gives each
attempt's outcome.  The second component collects the `time.sleep` durations
in order: HTTP 200 and non-429 client errors return the response at once;
429 sleeps `delay * 2^attempt`; 5xx sleeps `delay * (attempt+1)`; a timeout
or connection error sleeps `delay * (attempt+1)` unless it happens on the
final attempt (`attempt < max_retries - 1` fails, i.e. remaining = 1), in
which case the loop just ends. -/
def retryGo (tries : Nat → Outcome) (delay : Nat) : Nat → Nat → RetryResult × List Nat
  | _, 0 => (RetryResult.noResponse, [])
  | attempt, r + 1 =>
    match tries attempt with
    | Outcome.status c =>
      if c = 200 then (RetryResult.resp attempt c, [])
      else if c = 429 then
        let p := retryGo tries delay (attempt + 1) r
        (p.1, delay * 2 ^ attempt :: p.2)
      else if 500 ≤ c then
        let p := retryGo tries delay (attempt + 1) r
        (p.1, delay * (attempt + 1) :: p.2)
      else (RetryResult.resp attempt c, [])
    | Outcome.timeout =>
      if 1 ≤ r then
        let p := retryGo tries delay (attempt + 1) r
        (p.1, delay * (attempt + 1) :: p.2)
      else retryGo tries delay (attempt + 1) r
    | Outcome.connError =>
      if 1 ≤ r then
        let p := retryGo tries delay (attempt + 1) r
        (p.1, delay * (attempt + 1) :: p.2)
      else retryGo tries delay (attempt + 1) r

/-- Embedding of `make_api_request_with_retry` with its defaults
`max_retries=3`, `delay=2` kept as parameters: start at attempt 0 with the
whole retry budget remaining. -/
def make_api_request_with_retry (tries : Nat → Outcome) (max_retries delay : Nat) :
    RetryResult × List Nat :=
  retryGo tries delay 0 max_retries

/-- Truth of "this attempt's outcome causes a retry": rate limiting, a 5xx
status, a timeout or a connection error. -/
def failingOutcome : Outcome → Bool
  | Outcome.timeout => true
  | Outcome.connError => true
  | Outcome.status c => c == 429 || 500 ≤ c

/-- Helper lemma: a retrying outcome at the current attempt passes control to
the next attempt without changing the final result. -/
theorem retryGo_failing_step (tries : Nat → Outcome) (delay attempt r : Nat)
    (h : failingOutcome (tries attempt) = true) :
    (retryGo tries delay attempt (r + 1)).1 = (retryGo tries delay (attempt + 1) r).1 := by
  cases ho : tries attempt with
  | status c =>
    rw [ho] at h
    simp only [failingOutcome, Bool.or_eq_true, beq_iff_eq, decide_eq_true_eq] at h
    simp only [retryGo, ho]
    rcases h with rfl | h5
    · simp
    · have hne200 : ¬ c = 200 := by omega
      have hne429 : ¬ c = 429 := by omega
      simp [hne200, hne429, h5]
  | timeout =>
    simp only [retryGo, ho]
    by_cases hr : 1 ≤ r <;> simp [hr]
  | connError =>
    simp only [retryGo, ho]
    by_cases hr : 1 ≤ r <;> simp [hr]

/-- C6: the per-page retry policy — at any attempt `a` with retries left,
HTTP 429 sleeps `delay * 2^a` and retries; HTTP 5xx sleeps
`delay * (a+1)` and retries; a timeout or connection error (except on the
final attempt) sleeps `delay * (a+1)` and retries; any other non-200 status
below 500 is returned immediately with no retry and no sleep; and when all 3
attempts fail the function returns the `None` sentinel instead of raising. -/
theorem claim_C6_retry_policy :
    (∀ (tries : Nat → Outcome) (delay attempt r : Nat),
      tries attempt = Outcome.status 429 →
      retryGo tries delay attempt (r + 1)
        = ((retryGo tries delay (attempt + 1) r).1,
           delay * 2 ^ attempt :: (retryGo tries delay (attempt + 1) r).2))
  ∧ (∀ (tries : Nat → Outcome) (delay attempt r c : Nat),
      tries attempt = Outcome.status c → 500 ≤ c →
      retryGo tries delay attempt (r + 1)
        = ((retryGo tries delay (attempt + 1) r).1,
           delay * (attempt + 1) :: (retryGo tries delay (attempt + 1) r).2))
  ∧ (∀ (tries : Nat → Outcome) (delay attempt r : Nat),
      tries attempt = Outcome.timeout → 1 ≤ r →
      retryGo tries delay attempt (r + 1)
        = ((retryGo tries delay (attempt + 1) r).1,
           delay * (attempt + 1) :: (retryGo tries delay (attempt + 1) r).2))
  ∧ (∀ (tries : Nat → Outcome) (delay attempt r : Nat),
      tries attempt = Outcome.connError → 1 ≤ r →
      retryGo tries delay attempt (r + 1)
        = ((retryGo tries delay (attempt + 1) r).1,
           delay * (attempt + 1) :: (retryGo tries delay (attempt + 1) r).2))
  ∧ (∀ (tries : Nat → Outcome) (delay attempt r c : Nat),
      tries attempt = Outcome.status c → c ≠ 200 → c ≠ 429 → c < 500 →
      retryGo tries delay attempt (r + 1) = (RetryResult.resp attempt c, []))
  ∧ (∀ (tries : Nat → Outcome) (delay : Nat),
      (∀ a, a < 3 → failingOutcome (tries a) = true) →
      (make_api_request_with_retry tries 3 delay).1 = RetryResult.noResponse) := by
  refine ⟨?_, ?_, ?_, ?_, ?_, ?_⟩
  · intro tries delay attempt r h
    simp [retryGo, h]
  · intro tries delay attempt r c h h5
    have hne200 : ¬ c = 200 := by omega
    have hne429 : ¬ c = 429 := by omega
    simp [retryGo, h, hne200, hne429, h5]
  · intro tries delay attempt r h hr
    simp [retryGo, h, hr]
  · intro tries delay attempt r h hr
    simp [retryGo, h, hr]
  · intro tries delay attempt r c h h200 h429 h500
    have h5 : ¬ 500 ≤ c := by omega
    simp [retryGo, h, h200, h429, h5]
  · intro tries delay hfail
    have s0 := retryGo_failing_step tries delay 0 2 (hfail 0 (by omega))
    have s1 := retryGo_failing_step tries delay 1 1 (hfail 1 (by omega))
    have s2 := retryGo_failing_step tries delay 2 0 (hfail 2 (by omega))
    show (retryGo tries delay 0 3).1 = RetryResult.noResponse
    have e0 : (retryGo tries delay 0 3).1 = (retryGo tries delay 1 2).1 := s0
    have e1 : (retryGo tries delay 1 2).1 = (retryGo tries delay 2 1).1 := s1
    have e2 : (retryGo tries delay 2 1).1 = (retryGo tries delay 3 0).1 := s2
    rw [e0, e1, e2]
    rfl

/-- Witness for C6 at concrete inputs: a constant-429 server sleeps 2 seconds
before its second attempt; a constant-404 server is answered immediately; a
constant-timeout server yields the `None` sentinel. -/
theorem claim_C6_retry_policy_witness :
    retryGo (fun _ => Outcome.status 429) 2 0 3
      = ((retryGo (fun _ => Outcome.status 429) 2 1 2).1,
         2 * 2 ^ 0 :: (retryGo (fun _ => Outcome.status 429) 2 1 2).2)
  ∧ retryGo (fun _ => Outcome.status 404) 2 0 3 = (RetryResult.resp 0 404, [])
  ∧ (make_api_request_with_retry (fun _ => Outcome.timeout) 3 2).1
      = RetryResult.noResponse :=
  ⟨claim_C6_retry_policy.1 (fun _ => Outcome.status 429) 2 0 2 rfl,
   claim_C6_retry_policy.2.2.2.2.1 (fun _ => Outcome.status 404) 2 0 2 404 rfl
     (by decide) (by decide) (by decide),
   claim_C6_retry_policy.2.2.2.2.2 (fun _ => Outcome.timeout) 2 (fun a _ => rfl)⟩

/-- Model of a pandas timestamp at day granularity (the invoice creation
dates are parsed from `YYYY-MM-DD` strings and the window bounds are built
with `datetime(year, month, day)`, all at midnight), ordered
lexicographically by year, month, day. -/
structure PyDate where
  year : Nat
  month : Nat
  day : Nat
deriving DecidableEq, Repr

/-- Model of `<=` on the day-granularity timestamps. -/
def PyDate.ble (a b : PyDate) : Bool :=
  if a.year ≠ b.year then decide (a.year < b.year)
  else if a.month ≠ b.month then decide (a.month < b.month)
  else decide (a.day ≤ b.day)

/-- Row of the Stripe invoice table (`df_stripe`) restricted to the fields
the status calculations read: `ID_Subskrypcji` (nullable), `Data Utworzenia`
and `Status Faktury`. -/
structure Invoice where
  idSubskrypcji : Option String
  dataUtworzenia : PyDate
  statusFaktury : String
deriving DecidableEq, Repr

/-- Row of the subscription table restricted to the fields the invoice-status
calculations read: `ID Suba STRIPE` (nullable) and `Typ pakietu`. -/
structure SubRow where
  idSubaStripe : Option String
  typPakietu : String
deriving DecidableEq, Repr

/-- Embedding of `pd.isna(row['ID Suba STRIPE']) or row['ID Suba STRIPE'] == ''`. -/
def stripeRefBlank : Option String → Bool
  | none => true
  | some s => s == ""

/-- Configuration record `config['date_settings']['invoice_status_chosen_month']`. -/
structure ChosenMonthConfig where
  month : Nat
  year : Nat
  yearly_subscription_start_year : Nat
deriving DecidableEq, Repr

/-- Membership predicate of the monthly branch's boolean mask in
`calculate_invoice_status_chosen_month` (`sharepoint_excel_update.py:694-698`):
same subscription and creation month/year equal to the chosen month/year. -/
def monthlyChosenPred (cfg : ChosenMonthConfig) (subscription_id : String)
    (inv : Invoice) : Bool :=
  inv.idSubskrypcji == some subscription_id
  && inv.dataUtworzenia.month == cfg.month
  && inv.dataUtworzenia.year == cfg.year

/-- Model of the Gregorian leap-year rule used by Python's `datetime`. -/
def isLeapYear (y : Nat) : Bool :=
  (y % 4 == 0 && y % 100 != 0) || y % 400 == 0

/-- Model of the number of days in a month, as Python's `datetime` validates
the `day` argument. -/
def daysInMonth (y m : Nat) : Nat :=
  if m = 2 then (if isLeapYear y then 29 else 28)
  else if m = 4 ∨ m = 6 ∨ m = 9 ∨ m = 11 then 30
  else 31

/-- Model of the `datetime(year, month, day)` constructor: `none` stands for
the `ValueError` it raises on an invalid calendar date (Python also bounds
the year by `MINYEAR = 1` and `MAXYEAR = 9999`). -/
def mkDatetime (y m d : Nat) : Option PyDate :=
  if 1 ≤ y ∧ y ≤ 9999 ∧ 1 ≤ m ∧ m ≤ 12 ∧ 1 ≤ d ∧ d ≤ daysInMonth y m then
    some ⟨y, m, d⟩
  else none

/-- Membership predicate of the yearly branch's boolean mask in
`calculate_invoice_status_chosen_month` (`sharepoint_excel_update.py:705-709`):
same subscription and creation date within the closed interval between the
two constructed window bounds. -/
def yearlyChosenPred (start_date end_date : PyDate) (subscription_id : String)
    (inv : Invoice) : Bool :=
  inv.idSubskrypcji == some subscription_id
  && PyDate.ble start_date inv.dataUtworzenia
  && PyDate.ble inv.dataUtworzenia end_date

/-- Embedding of `if not filtered_invoices.empty: return
filtered_invoices.iloc[0]['Status Faktury']` followed by the final
`return ""` — the payment status of the first row of the filtered frame, or
the empty string when the frame is empty. -/
def firstMatchStatus (filtered : List Invoice) : String :=
  match filtered with
  | [] => ""
  | inv :: _ => inv.statusFaktury

/-- Embedding of `calculate_invoice_status_chosen_month`
(`sharepoint_excel_update.py:676-713`; the `enhanced_data_fetcher.py:499-528`
copy is the instance with `yearly_subscription_start_year = 2024`): a blank
Stripe reference yields "Nie można określić"; the monthly branch compares
creation month/year directly and constructs no datetime; the yearly branch
first builds `datetime(yearly_start_year, chosen_month, 1)` and
`datetime(chosen_year, chosen_month, 30)` — `none` is the `ValueError`
either construction raises (e.g. at `chosen_month = 2`, since February 30th
does not exist) — and then returns the first matching invoice's payment
status, or `""` when none matches. -/
def calculate_invoice_status_chosen_month (cfg : ChosenMonthConfig)
    (row : SubRow) (invoices : List Invoice) : Option String :=
  if stripeRefBlank row.idSubaStripe then some "Nie można określić"
  else
    let subscription_id := row.idSubaStripe.getD ""
    if row.typPakietu = "miesięczny" then
      some (firstMatchStatus (invoices.filter (monthlyChosenPred cfg subscription_id)))
    else if row.typPakietu = "roczny" then
      match mkDatetime cfg.yearly_subscription_start_year cfg.month 1,
            mkDatetime cfg.year cfg.month 30 with
      | some start_date, some end_date =>
        some (firstMatchStatus
          (invoices.filter (yearlyChosenPred start_date end_date subscription_id)))
      | _, _ => none
    else some ""

/-- Helper lemma: taking the head of a filtered list (with the empty string
for the empty case) is the same as `find?` followed by `map`/`getD`. -/
theorem filter_head_matches_find (p : Invoice → Bool) :
    ∀ l : List Invoice,
      firstMatchStatus (l.filter p)
        = ((l.find? p).map Invoice.statusFaktury).getD "" := by
  intro l
  induction l with
  | nil => rfl
  | cons a t ih =>
    cases hp : p a
    · rw [List.filter_cons_of_neg (by simp [hp]), List.find?_cons_of_neg _ (by simp [hp])]
      exact ih
    · rw [List.filter_cons_of_pos (by simp [hp]), List.find?_cons_of_pos _ hp]
      rfl

/-- Helper lemma: `datetime(year, month, 1)` succeeds for every in-range
month and year. -/
theorem mkDatetime_1_some (y m : Nat)
    (hm1 : 1 ≤ m) (hm2 : m ≤ 12) (hy1 : 1 ≤ y) (hy2 : y ≤ 9999) :
    mkDatetime y m 1 = some ⟨y, m, 1⟩ := by
  unfold mkDatetime
  apply if_pos
  refine ⟨hy1, hy2, hm1, hm2, by omega, ?_⟩
  unfold daysInMonth
  split_ifs <;> omega

/-- Helper lemma: `datetime(year, month, 30)` succeeds for every in-range
year and month other than February. -/
theorem mkDatetime_30_some (y m : Nat)
    (hm1 : 1 ≤ m) (hm2 : m ≤ 12) (hne2 : m ≠ 2)
    (hy1 : 1 ≤ y) (hy2 : y ≤ 9999) :
    mkDatetime y m 30 = some ⟨y, m, 30⟩ := by
  unfold mkDatetime
  apply if_pos
  refine ⟨hy1, hy2, hm1, hm2, by omega, ?_⟩
  unfold daysInMonth
  split_ifs <;> omega

/-- Helper lemma: `datetime(year, 2, 30)` raises for every year — February
30th does not exist even in leap years. -/
theorem mkDatetime_feb_30_none (y : Nat) : mkDatetime y 2 30 = none := by
  unfold mkDatetime
  apply if_neg
  rintro ⟨-, -, -, -, -, h6⟩
  cases hly : isLeapYear y <;> simp [daysInMonth, hly] at h6

/-- C7: `calculate_invoice_status_chosen_month` returns "Nie można określić"
for every row with a blank Stripe reference; for a yearly-plan row, whenever
the window endpoints are constructible (in-range years, and a chosen month
in 1..12 other than February, which has no day 30), it returns the payment
status of the first invoice of that subscription whose creation date lies in
the closed interval from day 1 of the chosen month in the configured yearly
start year to day 30 of the chosen month in the chosen year, and the empty
string — never a null — when no invoice matches; at `chosen_month = 2` the
`datetime(chosen_year, 2, 30)` construction raises (`none`) instead of
returning a status; and an invoice created on day 31 of the chosen month
and year never satisfies the yearly window predicate. -/
theorem claim_C7_chosen_month_status :
    (∀ (cfg : ChosenMonthConfig) (row : SubRow) (invoices : List Invoice),
      stripeRefBlank row.idSubaStripe = true →
      calculate_invoice_status_chosen_month cfg row invoices
        = some "Nie można określić")
  ∧ (∀ (cfg : ChosenMonthConfig) (sid : String) (invoices : List Invoice),
      sid ≠ "" → 1 ≤ cfg.month → cfg.month ≤ 12 → cfg.month ≠ 2 →
      1 ≤ cfg.year → cfg.year ≤ 9999 →
      1 ≤ cfg.yearly_subscription_start_year →
      cfg.yearly_subscription_start_year ≤ 9999 →
      calculate_invoice_status_chosen_month cfg ⟨some sid, "roczny"⟩ invoices
        = some (((invoices.find?
            (yearlyChosenPred ⟨cfg.yearly_subscription_start_year, cfg.month, 1⟩
              ⟨cfg.year, cfg.month, 30⟩ sid)).map Invoice.statusFaktury).getD ""))
  ∧ (∀ (cfg : ChosenMonthConfig) (sid : String) (invoices : List Invoice),
      sid ≠ "" → cfg.month = 2 →
      calculate_invoice_status_chosen_month cfg ⟨some sid, "roczny"⟩ invoices = none)
  ∧ (∀ (start_date : PyDate) (y m : Nat) (sid : String) (inv : Invoice),
      inv.dataUtworzenia = ⟨y, m, 31⟩ →
      yearlyChosenPred start_date ⟨y, m, 30⟩ sid inv = false) := by
  refine ⟨?_, ?_, ?_, ?_⟩
  · intro cfg row invoices hblank
    simp [calculate_invoice_status_chosen_month, hblank]
  · intro cfg sid invoices hsid hm1 hm2 hne2 hy1 hy2 hs1 hs2
    have hblank : stripeRefBlank (some sid) = false := by
      simp [stripeRefBlank, hsid]
    have hstart :=
      mkDatetime_1_some cfg.yearly_subscription_start_year cfg.month hm1 hm2 hs1 hs2
    have hend := mkDatetime_30_some cfg.year cfg.month hm1 hm2 hne2 hy1 hy2
    simp only [calculate_invoice_status_chosen_month, hblank, Bool.false_eq_true,
      if_false, Option.getD_some]
    rw [if_neg (by decide), if_pos trivial, hstart, hend]
    exact congrArg some (filter_head_matches_find _ invoices)
  · intro cfg sid invoices hsid hm2
    have hblank : stripeRefBlank (some sid) = false := by
      simp [stripeRefBlank, hsid]
    have hend : mkDatetime cfg.year cfg.month 30 = none := by
      rw [hm2]
      exact mkDatetime_feb_30_none cfg.year
    simp only [calculate_invoice_status_chosen_month, hblank, Bool.false_eq_true,
      if_false, Option.getD_some]
    rw [if_neg (by decide), if_pos trivial, hend]
    cases mkDatetime cfg.yearly_subscription_start_year cfg.month 1 <;> rfl
  · intro start_date y m sid inv hday
    simp only [yearlyChosenPred, hday]
    have h30 : PyDate.ble ⟨y, m, 31⟩ ⟨y, m, 30⟩ = false := by
      simp [PyDate.ble]
    rw [h30]
    simp

/-- Witness for C7 at concrete inputs: a NaN reference row; a June 2024-2025
yearly row resolved through the `find?` characterisation; a February
configuration raising on a referenced yearly row; and a day-31 invoice
rejected by the window predicate. -/
theorem claim_C7_chosen_month_status_witness :
    calculate_invoice_status_chosen_month ⟨6, 2025, 2024⟩ ⟨none, "roczny"⟩
      [⟨some "sub_9", ⟨2024, 6, 15⟩, "paid"⟩] = some "Nie można określić"
  ∧ calculate_invoice_status_chosen_month ⟨6, 2025, 2024⟩ ⟨some "sub_9", "roczny"⟩
      [⟨some "sub_9", ⟨2024, 6, 15⟩, "paid"⟩]
      = some (((([⟨some "sub_9", ⟨2024, 6, 15⟩, "paid"⟩] :
            List Invoice).find?
              (yearlyChosenPred ⟨2024, 6, 1⟩ ⟨2025, 6, 30⟩ "sub_9")).map
          Invoice.statusFaktury).getD "")
  ∧ calculate_invoice_status_chosen_month ⟨2, 2025, 2024⟩ ⟨some "sub_9", "roczny"⟩
      [⟨some "sub_9", ⟨2024, 6, 15⟩, "paid"⟩] = none
  ∧ yearlyChosenPred ⟨2024, 6, 1⟩ ⟨2025, 6, 30⟩ "sub_9"
      ⟨some "sub_9", ⟨2025, 6, 31⟩, "paid"⟩ = false :=
  ⟨claim_C7_chosen_month_status.1 ⟨6, 2025, 2024⟩ ⟨none, "roczny"⟩ _ rfl,
   claim_C7_chosen_month_status.2.1 ⟨6, 2025, 2024⟩ "sub_9" _ (by decide) (by decide)
     (by decide) (by decide) (by decide) (by decide) (by decide) (by decide),
   claim_C7_chosen_month_status.2.2.1 ⟨2, 2025, 2024⟩ "sub_9" _ (by decide) rfl,
   claim_C7_chosen_month_status.2.2.2 ⟨2024, 6, 1⟩ 2025 6 "sub_9" _ rfl⟩

/-- Configuration record `config['date_settings']['invoice_status_last_2_months']`. -/
structure Last2MonthsConfig where
  month1 : Nat
  month2 : Nat
  year : Nat
  yearly_subscription_start_year : Nat
deriving DecidableEq, Repr

/-- Membership predicate of the boolean mask in
`calculate_invoice_status_last_2_months`: same subscription, creation date
within the closed window, and payment status `paid`. -/
def last2MonthsPred (start_date end_date : PyDate) (subscription_id : String)
    (inv : Invoice) : Bool :=
  inv.idSubskrypcji == some subscription_id
  && PyDate.ble start_date inv.dataUtworzenia
  && PyDate.ble inv.dataUtworzenia end_date
  && inv.statusFaktury == "paid"

/-- Embedding of `calculate_invoice_status_last_2_months`
(`sharepoint_excel_update.py:715-755`; the `enhanced_data_fetcher.py:530-561`
copy is the instance with `yearly_subscription_start_year = 2024`): the
result is `none` when the `datetime(year, month2, 31)` / window construction
raises `ValueError`, and `some` of the returned string otherwise.  Both
window bounds are built before filtering, exactly as in the source. -/
def calculate_invoice_status_last_2_months (cfg : Last2MonthsConfig)
    (row : SubRow) (invoices : List Invoice) : Option String :=
  if stripeRefBlank row.idSubaStripe then some "Nie można określić"
  else
    let subscription_id := row.idSubaStripe.getD ""
    if row.typPakietu = "miesięczny" then
      match mkDatetime cfg.year cfg.month1 1, mkDatetime cfg.year cfg.month2 31 with
      | some start_date, some end_date =>
        some (if !(invoices.filter
                (last2MonthsPred start_date end_date subscription_id)).isEmpty
              then "paid" else "")
      | _, _ => none
    else if row.typPakietu = "roczny" then
      match mkDatetime cfg.yearly_subscription_start_year cfg.month2 1,
            mkDatetime cfg.year cfg.month2 31 with
      | some start_date, some end_date =>
        some (if !(invoices.filter
                (last2MonthsPred start_date end_date subscription_id)).isEmpty
              then "paid" else "")
      | _, _ => none
    else some ""

/-- Helper lemma: `datetime(year, month, 31)` raises for every month with
fewer than 31 days. -/
theorem mkDatetime_31_none (y m : Nat)
    (hm : m = 2 ∨ m = 4 ∨ m = 6 ∨ m = 9 ∨ m = 11) :
    mkDatetime y m 31 = none := by
  rcases hm with rfl | rfl | rfl | rfl | rfl <;>
    · unfold mkDatetime
      apply if_neg
      rintro ⟨-, -, -, -, -, h6⟩
      cases hly : isLeapYear y <;> simp [daysInMonth, hly] at h6

/-- Helper lemma: `datetime(year, month, 31)` succeeds for every 31-day month
and in-range year. -/
theorem mkDatetime_31_some (y m : Nat)
    (hm : m = 1 ∨ m = 3 ∨ m = 5 ∨ m = 7 ∨ m = 8 ∨ m = 10 ∨ m = 12)
    (hy1 : 1 ≤ y) (hy2 : y ≤ 9999) :
    mkDatetime y m 31 = some ⟨y, m, 31⟩ := by
  rcases hm with rfl | rfl | rfl | rfl | rfl | rfl | rfl <;>
    · unfold mkDatetime
      apply if_pos
      refine ⟨hy1, hy2, by omega, by omega, by omega, ?_⟩
      norm_num [daysInMonth]

/-- C9: `calculate_invoice_status_last_2_months` builds its upper bound as
`datetime(year, month2, 31)`, so for every row with a Stripe reference and a
monthly or yearly plan type, a configuration whose `month2` lies in
{2, 4, 6, 9, 11} makes the construction raise (`none`) instead of returning
a status; with `month2` in the 31-day set {1, 3, 5, 7, 8, 10, 12} (and
in-range `month1` and years) the function is total (`some`) on every row. -/
theorem claim_C9_day31_upper_bound :
    (∀ (cfg : Last2MonthsConfig) (row : SubRow) (invoices : List Invoice),
      stripeRefBlank row.idSubaStripe = false →
      (row.typPakietu = "miesięczny" ∨ row.typPakietu = "roczny") →
      (cfg.month2 = 2 ∨ cfg.month2 = 4 ∨ cfg.month2 = 6 ∨ cfg.month2 = 9
        ∨ cfg.month2 = 11) →
      calculate_invoice_status_last_2_months cfg row invoices = none)
  ∧ (∀ (cfg : Last2MonthsConfig) (row : SubRow) (invoices : List Invoice),
      (cfg.month2 = 1 ∨ cfg.month2 = 3 ∨ cfg.month2 = 5 ∨ cfg.month2 = 7
        ∨ cfg.month2 = 8 ∨ cfg.month2 = 10 ∨ cfg.month2 = 12) →
      1 ≤ cfg.month1 → cfg.month1 ≤ 12 →
      1 ≤ cfg.year → cfg.year ≤ 9999 →
      1 ≤ cfg.yearly_subscription_start_year →
      cfg.yearly_subscription_start_year ≤ 9999 →
      (calculate_invoice_status_last_2_months cfg row invoices).isSome = true) := by
  constructor
  · intro cfg row invoices hblank htyp hm2
    have hend := mkDatetime_31_none cfg.year cfg.month2 hm2
    rcases htyp with ht | ht
    · simp only [calculate_invoice_status_last_2_months, hblank, ht,
        Bool.false_eq_true, if_false, if_pos rfl]
      rw [hend]
      cases mkDatetime cfg.year cfg.month1 1 <;> rfl
    · simp only [calculate_invoice_status_last_2_months, hblank, ht,
        Bool.false_eq_true, if_false]
      rw [if_pos trivial, hend]
      cases mkDatetime cfg.yearly_subscription_start_year cfg.month2 1 <;> rfl
  · intro cfg row invoices hm2 h11 h12 hy1 hy2 hs1 hs2
    have hm2a : 1 ≤ cfg.month2 := by rcases hm2 with h|h|h|h|h|h|h <;> omega
    have hm2b : cfg.month2 ≤ 12 := by rcases hm2 with h|h|h|h|h|h|h <;> omega
    have hend := mkDatetime_31_some cfg.year cfg.month2 hm2 hy1 hy2
    cases hblank : stripeRefBlank row.idSubaStripe
    · by_cases ht1 : row.typPakietu = "miesięczny"
      · have hstart := mkDatetime_1_some cfg.year cfg.month1 h11 h12 hy1 hy2
        simp [calculate_invoice_status_last_2_months, hblank, ht1, hstart, hend]
      · by_cases ht2 : row.typPakietu = "roczny"
        · have hstart :=
            mkDatetime_1_some cfg.yearly_subscription_start_year cfg.month2 hm2a hm2b hs1 hs2
          simp [calculate_invoice_status_last_2_months, hblank, ht1, ht2, hstart, hend]
        · simp [calculate_invoice_status_last_2_months, hblank, ht1, ht2]
    · simp [calculate_invoice_status_last_2_months, hblank]

/-- Witness for C9 at concrete inputs: `month2 = 9` (30 days) raises for a
monthly row with a Stripe reference, while the production-style
configuration `month1 = 6, month2 = 7` returns a status. -/
theorem claim_C9_day31_upper_bound_witness :
    calculate_invoice_status_last_2_months ⟨8, 9, 2025, 2024⟩
      ⟨some "sub_1", "miesięczny"⟩ [] = none
  ∧ (calculate_invoice_status_last_2_months ⟨6, 7, 2025, 2024⟩
      ⟨some "sub_1", "miesięczny"⟩ []).isSome = true :=
  ⟨claim_C9_day31_upper_bound.1 ⟨8, 9, 2025, 2024⟩ ⟨some "sub_1", "miesięczny"⟩ []
     rfl (Or.inl rfl) (by decide),
   claim_C9_day31_upper_bound.2 ⟨6, 7, 2025, 2024⟩ ⟨some "sub_1", "miesięczny"⟩ []
     (by decide) (by decide) (by decide) (by decide) (by decide) (by decide) (by decide)⟩

/-- Model of one JSON page response of the Calendesk API as the fetchers
read it: the `data` array (records modelled by their ids), `last_page`,
`total`, and the presence of `next_page_url`. -/
structure PageResp where
  pdata : List Nat
  last_page : Nat
  total : Nat
  has_next : Bool
deriving DecidableEq, Repr

/-- Embedding of the page loop of `fetch_calendesk_data`
(`enhanced_data_fetcher.py:97-141`): the server is a function from page
number to `none` (request failed after retries or non-200) or a page
response.  The loop keeps the source's structure: stop when
`current_page > total_pages`; a failed request or an empty `data` array
breaks; otherwise the records are appended, `total_pages` is updated to the
response's `last_page`, and the loop breaks when there is no
`next_page_url` and the current page has reached the updated total.  The
`fuel` argument bounds the number of iterations (the Python loop can spin
unboundedly only if the server keeps raising `last_page`; under the
conformance hypotheses below any fuel of at least `last_page - 1` is
exact). -/
def fetchLoop (server : Nat → Option PageResp) : Nat → Nat → Nat → List Nat
  | 0, _, _ => []
  | fuel + 1, current_page, total_pages =>
    if current_page ≤ total_pages then
      match server current_page with
      | none => []
      | some r =>
        if r.pdata.isEmpty then []
        else if !r.has_next && decide (r.last_page ≤ current_page) then r.pdata
        else r.pdata ++ fetchLoop server fuel (current_page + 1) r.last_page
    else []

/-- Embedding of `fetch_calendesk_data` (`enhanced_data_fetcher.py:53-176`):
the first request reads `last_page`; with at most one page the first page's
records are returned at once, otherwise the remaining pages are fetched by
the loop starting at page 2. -/
def fetch_calendesk_data (server : Nat → Option PageResp) (fuel : Nat) : List Nat :=
  match server 1 with
  | none => []
  | some r =>
    if r.last_page ≤ 1 then r.pdata
    else r.pdata ++ fetchLoop server fuel 2 r.last_page

/-- Embedding of the page loop of `fetch_calendesk_data_all`
(`sharepoint_excel_update.py:491-515`): fetch pages while
`current_page <= max_pages`, stopping at a failed request or an empty
`data` array; the second argument counts the remaining allowed pages
(`max_pages - current_page + 1`), so the structural recursion matches the
bounded `while` loop exactly. -/
def fetchAllLoop (server : Nat → Option PageResp) : Nat → Nat → List Nat
  | _, 0 => []
  | current_page, n + 1 =>
    match server current_page with
    | none => []
    | some r =>
      if r.pdata.isEmpty then []
      else r.pdata ++ fetchAllLoop server (current_page + 1) n

/-- Embedding of `fetch_calendesk_data_all`
(`sharepoint_excel_update.py:484-518`): start at page 1 with
`max_pages = 10` — the hard cap the source sets "for testing".  The
server-declared `last_page` and `total` are never read. -/
def fetch_calendesk_data_all (server : Nat → Option PageResp) : List Nat :=
  fetchAllLoop server 1 10

/-- Concatenation of the contents of pages `c`, `c+1`, .., `c+n-1`. -/
def pagesCat (pages : Nat → List Nat) : Nat → Nat → List Nat
  | _, 0 => []
  | c, n + 1 => pages c ++ pagesCat pages (c + 1) n

/-- Unfolding equation of `pagesCat`. -/
theorem pagesCat_succ (pages : Nat → List Nat) (c n : Nat) :
    pagesCat pages c (n + 1) = pages c ++ pagesCat pages (c + 1) n := rfl

/-- Helper lemma: `pagesCat` splits over an addition of page counts. -/
theorem pagesCat_append (pages : Nat → List Nat) :
    ∀ m c n, pagesCat pages c (m + n)
      = pagesCat pages c m ++ pagesCat pages (c + m) n := by
  intro m
  induction m with
  | zero => intro c n; simp [pagesCat]
  | succ m ih =>
    intro c n
    have h1 : m + 1 + n = (m + n) + 1 := by omega
    rw [h1, pagesCat_succ, ih (c + 1) n, pagesCat_succ, List.append_assoc]
    have h2 : c + 1 + m = c + (m + 1) := by omega
    rw [h2]

/-- Conformance of a server to a fixed page table: pages 1..`L` answer with
their records, a stable `last_page = L`, the declared `total = T`, and a
`next_page_url` exactly below `L`; pages beyond `L` answer with an empty
`data` array; and every in-range page is nonempty. -/
def ServesPages (server : Nat → Option PageResp) (pages : Nat → List Nat)
    (L T : Nat) : Prop :=
  (∀ i, 1 ≤ i → i ≤ L → server i = some ⟨pages i, L, T, decide (i < L)⟩)
  ∧ (∀ i, L < i → server i = some ⟨[], L, T, false⟩)
  ∧ (∀ i, 1 ≤ i → i ≤ L → pages i ≠ [])

/-- Failure scenario: the server conforms on pages below `f`, every in-range
page is nonempty, and page `f` (within range) exhausts the retry budget. -/
def FailsAt (server : Nat → Option PageResp) (pages : Nat → List Nat)
    (L T f : Nat) : Prop :=
  1 ≤ f ∧ f ≤ L
  ∧ (∀ i, 1 ≤ i → i < f → server i = some ⟨pages i, L, T, decide (i < L)⟩)
  ∧ server f = none
  ∧ (∀ i, 1 ≤ i → i ≤ L → pages i ≠ [])

/-- Helper lemma: under conformance the loop starting at page `c` returns
exactly the contents of pages `c`..`L`. -/
theorem fetchLoop_serves (server : Nat → Option PageResp) (pages : Nat → List Nat)
    (L T : Nat) (hs : ServesPages server pages L T) :
    ∀ fuel c, 2 ≤ c → c ≤ L → L ≤ fuel + c - 1 →
      fetchLoop server fuel c L = pagesCat pages c (L + 1 - c) := by
  intro fuel
  induction fuel with
  | zero =>
    intro c h2 hcL hfuel
    exfalso
    omega
  | succ fuel ih =>
    intro c h2 hcL hfuel
    have hsc := hs.1 c (by omega) hcL
    have hpe : (pages c).isEmpty = false := by
      have := hs.2.2 c (by omega) hcL
      cases hp : pages c with
      | nil => exact absurd hp this
      | cons a l => rfl
    simp only [fetchLoop, if_pos hcL, hsc, hpe, Bool.false_eq_true, if_false]
    by_cases hcl : c < L
    · rw [if_neg (by simp [hcl])]
      rw [ih (c + 1) (by omega) (by omega) (by omega)]
      rw [show L + 1 - c = (L - c) + 1 from by omega, pagesCat_succ,
        show L + 1 - (c + 1) = L - c from by omega]
    · have hLc : L ≤ c := by omega
      rw [if_pos (by simp [hcl, hLc])]
      rw [show L + 1 - c = 1 from by omega, pagesCat_succ]
      simp [pagesCat]

/-- Helper lemma: under conformance the full fetch returns exactly the
contents of pages 1..`L`. -/
theorem fetch_calendesk_data_serves (server : Nat → Option PageResp)
    (pages : Nat → List Nat) (L T fuel : Nat) (hs : ServesPages server pages L T)
    (hL : 1 ≤ L) (hfuel : L ≤ fuel + 1) :
    fetch_calendesk_data server fuel = pagesCat pages 1 L := by
  have h1 := hs.1 1 le_rfl hL
  simp only [fetch_calendesk_data, h1]
  by_cases hL1 : L ≤ 1
  · have hLe : L = 1 := by omega
    rw [if_pos (by omega)]
    rw [hLe, pagesCat_succ]
    simp [pagesCat]
  · rw [if_neg hL1,
      fetchLoop_serves server pages L T hs fuel 2 le_rfl (by omega) (by omega)]
    rw [show L = (L - 1) + 1 from by omega, pagesCat_succ,
      show L - 1 + 1 + 1 - 2 = L - 1 from by omega]

/-- Helper lemma: when page `f ≥ 2` fails, the loop starting at page
`c ≤ f` returns exactly the contents of pages `c`..`f-1`. -/
theorem fetchLoop_fails (server : Nat → Option PageResp) (pages : Nat → List Nat)
    (L T f : Nat) (hf : FailsAt server pages L T f) :
    ∀ fuel c, 2 ≤ c → c ≤ f → f ≤ fuel + c - 1 →
      fetchLoop server fuel c L = pagesCat pages c (f - c) := by
  obtain ⟨hf1, hfL, hserve, hnone, hne⟩ := hf
  intro fuel
  induction fuel with
  | zero =>
    intro c h2 hcf hfuel
    exfalso
    omega
  | succ fuel ih =>
    intro c h2 hcf hfuel
    by_cases hceq : c = f
    · subst hceq
      simp only [fetchLoop, if_pos (show c ≤ L from hcf.trans hfL), hnone]
      rw [show c - c = 0 from by omega]
      rfl
    · have hclt : c < f := by omega
      have hsc := hserve c (by omega) hclt
      have hpe : (pages c).isEmpty = false := by
        have := hne c (by omega) (by omega)
        cases hp : pages c with
        | nil => exact absurd hp this
        | cons a l => rfl
      have hcl : c < L := by omega
      simp only [fetchLoop, if_pos (show c ≤ L from by omega), hsc, hpe,
        Bool.false_eq_true, if_false]
      rw [if_neg (by simp [hcl])]
      rw [ih (c + 1) (by omega) (by omega) (by omega)]
      rw [show f - c = (f - (c + 1)) + 1 from by omega, pagesCat_succ]

/-- Helper lemma: when page `f` fails, the full fetch returns exactly the
contents of pages 1..`f-1`. -/
theorem fetch_calendesk_data_fails (server : Nat → Option PageResp)
    (pages : Nat → List Nat) (L T f fuel : Nat) (hf : FailsAt server pages L T f)
    (hfuel : L ≤ fuel + 1) :
    fetch_calendesk_data server fuel = pagesCat pages 1 (f - 1) := by
  by_cases hfe : f = 1
  · have hnone := hf.2.2.2.1
    rw [hfe] at hnone
    simp only [fetch_calendesk_data, hnone]
    rw [hfe]
    rfl
  · obtain ⟨hf1, hfL, hserve, hnone, hne⟩ := hf
    have h1 := hserve 1 le_rfl (by omega)
    simp only [fetch_calendesk_data, h1]
    rw [if_neg (by omega),
      fetchLoop_fails server pages L T f ⟨hf1, hfL, hserve, hnone, hne⟩ fuel 2
        le_rfl (by omega) (by omega)]
    rw [show f - 1 = (f - 2) + 1 from by omega, pagesCat_succ]

/-- Helper lemma: under conformance the capped loop starting at page `c`
returns the contents of pages `c`..`L` as long as the cap covers them. -/
theorem fetchAllLoop_serves (server : Nat → Option PageResp)
    (pages : Nat → List Nat) (L T : Nat) (hs : ServesPages server pages L T) :
    ∀ n c, 1 ≤ c → c ≤ L + 1 → L ≤ c + n - 1 →
      fetchAllLoop server c n = pagesCat pages c (L + 1 - c) := by
  intro n
  induction n with
  | zero =>
    intro c h1 hc hL
    have hce : c = L + 1 := by omega
    rw [show L + 1 - c = 0 from by omega]
    rfl
  | succ n ih =>
    intro c h1 hc hL
    by_cases hcL : c ≤ L
    · have hsc := hs.1 c h1 hcL
      have hpe : (pages c).isEmpty = false := by
        have := hs.2.2 c h1 hcL
        cases hp : pages c with
        | nil => exact absurd hp this
        | cons a l => rfl
      simp only [fetchAllLoop, hsc, hpe, Bool.false_eq_true, if_false]
      rw [ih (c + 1) (by omega) (by omega) (by omega)]
      rw [show L + 1 - c = (L - c) + 1 from by omega, pagesCat_succ,
        show L + 1 - (c + 1) = L - c from by omega]
    · have hce : c = L + 1 := by omega
      subst hce
      have hsc := hs.2.1 (L + 1) (by omega)
      simp only [fetchAllLoop, hsc]
      rw [show L + 1 - (L + 1) = 0 from by omega]
      rfl

/-- Helper lemma: when page `f` fails within the cap, the capped loop
starting at page `c ≤ f` returns the contents of pages `c`..`f-1`. -/
theorem fetchAllLoop_fails (server : Nat → Option PageResp)
    (pages : Nat → List Nat) (L T f : Nat) (hf : FailsAt server pages L T f) :
    ∀ n c, 1 ≤ c → c ≤ f → f ≤ c + n - 1 →
      fetchAllLoop server c n = pagesCat pages c (f - c) := by
  obtain ⟨hf1, hfL, hserve, hnone, hne⟩ := hf
  intro n
  induction n with
  | zero =>
    intro c h1 hcf hfc
    exfalso
    omega
  | succ n ih =>
    intro c h1 hcf hfc
    by_cases hceq : c = f
    · subst hceq
      simp only [fetchAllLoop, hnone]
      rw [show c - c = 0 from by omega]
      rfl
    · have hclt : c < f := by omega
      have hsc := hserve c h1 hclt
      have hpe : (pages c).isEmpty = false := by
        have := hne c h1 (by omega)
        cases hp : pages c with
        | nil => exact absurd hp this
        | cons a l => rfl
      simp only [fetchAllLoop, hsc, hpe, Bool.false_eq_true, if_false]
      rw [ih (c + 1) (by omega) (by omega) (by omega)]
      rw [show f - c = (f - (c + 1)) + 1 from by omega, pagesCat_succ]

/-- Helper lemma: the records of pages 1..`f-1` are strictly fewer than
those of pages 1..`L` when the in-range page `f` is nonempty. -/
theorem pagesCat_prefix_lt (pages : Nat → List Nat) (L f : Nat)
    (h1 : 1 ≤ f) (hfL : f ≤ L) (hne : pages f ≠ []) :
    (pagesCat pages 1 (f - 1)).length < (pagesCat pages 1 L).length := by
  have hsplit : pagesCat pages 1 L
      = pagesCat pages 1 (f - 1) ++ pagesCat pages (1 + (f - 1)) (L - (f - 1)) := by
    rw [← pagesCat_append pages (f - 1) 1 (L - (f - 1))]
    congr 1
    omega
  rw [hsplit, List.length_append]
  rw [show 1 + (f - 1) = f from by omega,
    show L - (f - 1) = (L - f) + 1 from by omega, pagesCat_succ, List.length_append]
  have hpos : 0 < (pages f).length := List.length_pos.mpr hne
  omega

/-- Server of the C1 counterexample: eleven one-record pages, an honest
`last_page = 11` and `total = 11`, and every request (including pages beyond
the data) succeeding. -/
def cexServer (p : Nat) : Option PageResp :=
  if p ≤ 11 then some ⟨[p], 11, 11, decide (p < 11)⟩ else some ⟨[], 11, 11, false⟩

/-- Truth of "every one of the first `n` page requests succeeds". -/
def allPagesOk (server : Nat → Option PageResp) (n : Nat) : Bool :=
  (List.range' 1 n).all fun p => (server p).isSome

/-- C1 counterexample: against a server that declares `total = 11` across 11
pages with every page request succeeding, `fetch_calendesk_data_all` (capped
at 10 pages) returns 10 records, not 11 — while `fetch_calendesk_data`
returns all 11 — refuting the claim for `fetch_calendesk_data_all`. -/
theorem claim_C1_counterexample :
    allPagesOk cexServer 11 = true
  ∧ ((cexServer 1).getD ⟨[], 0, 0, false⟩).total = 11
  ∧ (fetch_calendesk_data cexServer 10).length = 11
  ∧ (fetch_calendesk_data_all cexServer).length = 10 := by decide

/-- C1 (amended): for `fetch_calendesk_data`, a server that declares a total
of `T` records across its `L` pages and answers every page request yields a
record list of length exactly `T`, and `fetch_calendesk_data_all` does too
when the data spans at most its 10-page cap; and when a page request
exhausts its retry budget (the `none` response), both functions return a
list of length less than `T` — and raise no exception, being total
functions into `List Nat`.  The `fuel` hypothesis only requires enough loop
iterations for the declared page count. -/
theorem claim_C1_pagination :
    (∀ (server : Nat → Option PageResp) (pages : Nat → List Nat) (L T fuel : Nat),
      ServesPages server pages L T → T = (pagesCat pages 1 L).length →
      1 ≤ L → L ≤ fuel + 1 →
      (fetch_calendesk_data server fuel).length = T
      ∧ (L ≤ 10 → (fetch_calendesk_data_all server).length = T))
  ∧ (∀ (server : Nat → Option PageResp) (pages : Nat → List Nat) (L T f fuel : Nat),
      FailsAt server pages L T f → T = (pagesCat pages 1 L).length →
      L ≤ fuel + 1 →
      (fetch_calendesk_data server fuel).length < T
      ∧ (f ≤ 10 → (fetch_calendesk_data_all server).length < T)) := by
  constructor
  · intro server pages L T fuel hs hT hL hfuel
    constructor
    · rw [fetch_calendesk_data_serves server pages L T fuel hs hL hfuel, hT]
    · intro h10
      rw [fetch_calendesk_data_all,
        fetchAllLoop_serves server pages L T hs 10 1 le_rfl (by omega) (by omega)]
      rw [show L + 1 - 1 = L from by omega, hT]
  · intro server pages L T f fuel hf hT hfuel
    have hf1 := hf.1
    have hfL := hf.2.1
    have hne := hf.2.2.2.2 f hf1 hfL
    constructor
    · rw [fetch_calendesk_data_fails server pages L T f fuel hf hfuel, hT]
      exact pagesCat_prefix_lt pages L f hf1 hfL hne
    · intro h10
      rw [fetch_calendesk_data_all,
        fetchAllLoop_fails server pages L T f hf 10 1 le_rfl hf1 (by omega)]
      rw [hT]
      exact pagesCat_prefix_lt pages L f hf1 hfL hne

/-- Two-page conforming demo server for the C1 witness. -/
def demoServer (p : Nat) : Option PageResp :=
  if p ≤ 2 then some ⟨[p], 2, 2, decide (p < 2)⟩ else some ⟨[], 2, 2, false⟩

/-- Three-page demo server whose page 2 exhausts its retries, for the C1
witness. -/
def demoFailServer (p : Nat) : Option PageResp :=
  if p = 2 then none
  else if p ≤ 3 then some ⟨[p], 3, 3, decide (p < 3)⟩
  else some ⟨[], 3, 3, false⟩

/-- Witness for C1 at concrete servers: the conforming two-page server gives
exactly 2 records on both fetchers; the server failing at page 2 of 3 gives
fewer than 3 records on both fetchers. -/
theorem claim_C1_pagination_witness :
    (fetch_calendesk_data demoServer 1).length = 2
  ∧ (fetch_calendesk_data_all demoServer).length = 2
  ∧ (fetch_calendesk_data demoFailServer 2).length < 3
  ∧ (fetch_calendesk_data_all demoFailServer).length < 3 := by
  have hs : ServesPages demoServer (fun i => [i]) 2 2 := by
    refine ⟨?_, ?_, ?_⟩
    · intro i h1 h2
      interval_cases i <;> rfl
    · intro i hi
      simp only [demoServer]
      rw [if_neg (by omega)]
    · intro i h1 h2
      simp
  have hf : FailsAt demoFailServer (fun i => [i]) 3 3 2 := by
    refine ⟨by omega, by omega, ?_, rfl, ?_⟩
    · intro i h1 h2
      interval_cases i <;> rfl
    · intro i h1 h2
      simp
  have hsucc := claim_C1_pagination.1 demoServer (fun i => [i]) 2 2 1 hs rfl
    (by omega) (by omega)
  have hfail := claim_C1_pagination.2 demoFailServer (fun i => [i]) 3 3 2 2 hf rfl
    (by omega)
  exact ⟨hsucc.1, hsucc.2 (by omega), hfail.1, hfail.2 (by omega)⟩
